import Mathlib

/-!
Verification of the budget-bot repository: a shallow embedding of the
expense parser (src/services/expense_parser.py), the budget status
calculator (src/services/budget_calculator.py), the data-access queries
(src/database/queries.py) modelled over an in-memory list store, and the
authorization / cancel handlers (src/bot/handlers.py).

Monetary amounts are modelled as rationals (exact decimal values), dates
as proleptic-Gregorian calendar dates with Python's `date.toordinal`
day numbering, and strings as lists of characters.
-/

namespace BudgetBot

/-! Date model, mirroring Python `datetime.date`.  Subtraction of two
dates yields a day count (`.days`), comparison is calendar order, which
for valid dates coincides with ordinal order. -/

/-- Calendar date with the fields of Python `datetime.date`. -/
structure Date where
  year : Nat
  month : Nat
  day : Nat
deriving DecidableEq, Repr

/-- Gregorian leap-year test, as in Python `datetime`. -/
def isLeapYear (y : Nat) : Bool :=
  y % 4 == 0 && (y % 100 != 0 || y % 400 == 0)

/-- Number of days in the years strictly before year `y`
(Python `datetime._days_before_year`). -/
def daysBeforeYear (y : Nat) : Nat :=
  (y - 1) * 365 + (y - 1) / 4 - (y - 1) / 100 + (y - 1) / 400

/-- Number of days in month `m` of year `y` (Python `datetime._days_in_month`). -/
def daysInMonth (y m : Nat) : Nat :=
  if m = 2 then (if isLeapYear y then 29 else 28)
  else if m = 4 ∨ m = 6 ∨ m = 9 ∨ m = 11 then 30
  else 31

/-- Number of days in year `y` strictly before month `m`
(Python `datetime._days_before_month`). -/
def daysBeforeMonth (y m : Nat) : Nat :=
  (List.range (m - 1)).foldl (fun acc i => acc + daysInMonth y (i + 1)) 0

/-- Ordinal day number of a date (Python `date.toordinal`): day 1 is
0001-01-01. -/
def Date.toOrdinal (d : Date) : Nat :=
  daysBeforeYear d.year + daysBeforeMonth d.year d.month + d.day

/-- Strict date comparison `a < b` (Python `date.__lt__`; for valid dates
calendar order coincides with ordinal order). -/
abbrev dateLT (a b : Date) : Prop := a.toOrdinal < b.toOrdinal

/-- Date subtraction in whole days (Python `(a - b).days`). -/
def dateSub (a b : Date) : Int := (a.toOrdinal : Int) - (b.toOrdinal : Int)

/-! Budget status calculator (src/services/budget_calculator.py). -/

/-- Record returned by `calculate_budget_status`, mirroring the Python
dataclass `BudgetStatus`. -/
structure BudgetStatus where
  total_budget : ℚ
  total_spent : ℚ
  remaining_budget : ℚ
  start_date : Date
  end_date : Date
  days_total : ℤ
  days_passed : ℤ
  days_remaining : ℤ
  daily_budget : ℚ
deriving DecidableEq, Repr

/-- Property `BudgetStatus.spent_percentage`. -/
def BudgetStatus.spent_percentage (s : BudgetStatus) : ℚ :=
  if s.total_budget ≤ 0 then 0 else s.total_spent / s.total_budget * 100

/-- Property `BudgetStatus.is_over_budget`. -/
def BudgetStatus.is_over_budget (s : BudgetStatus) : Bool :=
  decide (s.remaining_budget < 0)

/-- Property `BudgetStatus.daily_average_spent`. -/
def BudgetStatus.daily_average_spent (s : BudgetStatus) : ℚ :=
  if s.days_passed ≤ 0 then 0 else s.total_spent / (s.days_passed : ℚ)

/-- Embedding of `calculate_budget_status`.  The Python default
`current_date = date.today()` is injectable; here it is an explicit
argument. -/
def calculate_budget_status (total_budget total_spent : ℚ)
    (start_date end_date current_date : Date) : BudgetStatus :=
  let days_total : ℤ := dateSub end_date start_date + 1
  let days_passed : ℤ :=
    if dateLT current_date start_date then 0
    else if dateLT end_date current_date then days_total
    else dateSub current_date start_date + 1
  let days_remaining : ℤ :=
    if dateLT end_date current_date then 0
    else if dateLT current_date start_date then days_total
    else dateSub end_date current_date + 1
  let remaining_budget : ℚ := total_budget - total_spent
  let daily_budget : ℚ :=
    if 0 < days_remaining then remaining_budget / (days_remaining : ℚ) else 0
  ⟨total_budget, total_spent, remaining_budget, start_date, end_date,
    days_total, days_passed, days_remaining, daily_budget⟩

/-! Expense text parser (src/services/expense_parser.py).  Messages are
lists of characters; whitespace is the ASCII whitespace class (the inputs
of interest are ASCII, and `strip` and the regex use the same class). -/

/-- Whitespace test used by Python `str.strip` and the regex class `\s`
(restricted to the ASCII whitespace characters). -/
def isPySpace (c : Char) : Bool :=
  c = ' ' || c = '\t' || c = '\n' || c = '\r' || c = '\x0b' || c = '\x0c'

/-- Embedding of Python `str.strip`: drop leading and trailing
whitespace. -/
def strip (l : List Char) : List Char :=
  ((l.dropWhile isPySpace).reverse.dropWhile isPySpace).reverse

/-- Match of the anchored regex `^(\d+\.?\d*|\.\d+)` at the start of a
string: the greedy number token (maximal digit run, an optional dot,
then a maximal digit run; or a dot followed by a nonempty maximal digit
run).  Returns the token and the rest of the input.  Since the digit
class, the dot and the whitespace class that must follow are disjoint,
Python's backtracking succeeds exactly on this greedy decomposition. -/
def matchNumberToken (s : List Char) : Option (List Char × List Char) :=
  let d1 := s.takeWhile Char.isDigit
  let r1 := s.dropWhile Char.isDigit
  if d1 = [] then
    match r1 with
    | '.' :: rest =>
        let d2 := rest.takeWhile Char.isDigit
        if d2 = [] then none
        else some ('.' :: d2, rest.dropWhile Char.isDigit)
    | _ => none
  else
    match r1 with
    | '.' :: rest =>
        let d2 := rest.takeWhile Char.isDigit
        some (d1 ++ '.' :: d2, rest.dropWhile Char.isDigit)
    | _ => some (d1, r1)

/-- Match of `re.match` with pattern `^(\d+\.?\d*|\.\d+)\s+(.+)$` against
a stripped message: the number token, one or more whitespace characters,
then a nonempty description that contains no newline (`.` does not match
a newline, and on a stripped input `$` only matches at the end).
Returns the two capture groups. -/
def matchExpense (s : List Char) : Option (List Char × List Char) :=
  match matchNumberToken s with
  | none => none
  | some (num, rest) =>
      let ws := rest.takeWhile isPySpace
      let desc := rest.dropWhile isPySpace
      if ws = [] then none
      else if desc = [] then none
      else if desc.any (fun c => c = '\n') then none
      else some (num, desc)

/-- Numeric value of a digit string (most significant digit first). -/
def digitsToNat (l : List Char) : Nat :=
  l.foldl (fun acc c => acc * 10 + (c.toNat - '0'.toNat)) 0

/-- Exact value of a decimal numeral matched by the number-token pattern
(Python `float(amount_str)`, modelled exactly over the rationals): the
integer part plus the fractional digits over the matching power of
ten. -/
def decimalToRat (l : List Char) : ℚ :=
  let intPart := l.takeWhile Char.isDigit
  let rest := l.dropWhile Char.isDigit
  match rest with
  | '.' :: frac =>
      mkRat (digitsToNat intPart * 10 ^ frac.length + digitsToNat frac) (10 ^ frac.length)
  | _ => (digitsToNat intPart : ℚ)

/-- Result of a successful parse, mirroring the Python dataclass
`ParsedExpense`. -/
structure ParsedExpense where
  amount : ℚ
  description : List Char
deriving DecidableEq, Repr

/-- Typed parse failure, one constructor per `ExpenseParseError` raise
site in `parse_expense`. -/
inductive ExpenseParseError where
  | emptyMessage
  | invalidFormat
  | amountNotPositive
  | amountTooLarge
  | emptyDescription
  | descriptionTooLong
deriving DecidableEq, Repr

/-- Embedding of `parse_expense`.  The Python `float(amount_str)`
conversion cannot fail on a string matched by the number-token pattern,
so the `ValueError` re-raise branch is unreachable and not modelled. -/
def parse_expense (message : List Char) : Except ExpenseParseError ParsedExpense :=
  let m := strip message
  if m = [] then .error .emptyMessage
  else
    match matchExpense m with
    | none => .error .invalidFormat
    | some (amountStr, description) =>
        let amount := decimalToRat amountStr
        if amount ≤ 0 then .error .amountNotPositive
        else if 1000000 < amount then .error .amountTooLarge
        else
          let d := strip description
          if d = [] then .error .emptyDescription
          else if 200 < d.length then .error .descriptionTooLong
          else .ok ⟨amount, d⟩

/-- Embedding of `is_expense_message`: after stripping, the message is
nonempty and `re.match` with `^[\d.]` succeeds, i.e. the first character
is a digit or a dot. -/
def is_expense_message (message : List Char) : Bool :=
  match strip message with
  | [] => false
  | c :: _ => c.isDigit || c = '.'

instance instDecidableEqExcept {α β : Type} [DecidableEq α] [DecidableEq β] :
    DecidableEq (Except α β) := fun a b =>
  match a, b with
  | .error x, .error y =>
      if h : x = y then isTrue (by rw [h]) else isFalse (by intro hc; cases hc; exact h rfl)
  | .ok x, .ok y =>
      if h : x = y then isTrue (by rw [h]) else isFalse (by intro hc; cases hc; exact h rfl)
  | .error _, .ok _ => isFalse (by intro hc; cases hc)
  | .ok _, .error _ => isFalse (by intro hc; cases hc)

/-- Helper: a successful number-token match implies the input starts with
a digit or a dot. -/
theorem matchNumberToken_head {s : List Char} {p : List Char × List Char}
    (h : matchNumberToken s = some p) :
    ∃ c t, s = c :: t ∧ (c.isDigit = true ∨ c = '.') := by
  cases s with
  | nil => simp [matchNumberToken] at h
  | cons c t =>
    by_cases hc : c.isDigit
    · exact ⟨c, t, rfl, Or.inl hc⟩
    · by_cases hd : c = '.'
      · exact ⟨c, t, rfl, Or.inr hd⟩
      · exfalso
        simp [matchNumberToken, List.takeWhile, List.dropWhile, hc, hd] at h

/-- Helper: a successful full match implies a successful number-token
match. -/
theorem matchExpense_numberToken {s : List Char} {p : List Char × List Char}
    (h : matchExpense s = some p) : ∃ q, matchNumberToken s = some q := by
  unfold matchExpense at h
  cases hm : matchNumberToken s with
  | none =>
    rw [hm] at h
    exact Option.noConfusion h
  | some q => exact ⟨q, rfl⟩

/-- Helper: a successful parse implies a successful full match on the
stripped message. -/
theorem parse_expense_ok_match {msg : List Char} {pe : ParsedExpense}
    (h : parse_expense msg = .ok pe) :
    strip msg ≠ [] ∧ ∃ ns ds, matchExpense (strip msg) = some (ns, ds)
      ∧ pe.amount = decimalToRat ns ∧ pe.description = strip ds := by
  obtain ⟨a, d⟩ := pe
  unfold parse_expense at h
  by_cases h0 : strip msg = []
  · simp [h0] at h
  · refine ⟨h0, ?_⟩
    rw [if_neg h0] at h
    cases hm : matchExpense (strip msg) with
    | none =>
      rw [hm] at h
      exact Except.noConfusion h
    | some p =>
      obtain ⟨ns, ds⟩ := p
      rw [hm] at h
      refine ⟨ns, ds, rfl, ?_⟩
      by_cases h1 : decimalToRat ns ≤ 0 <;> by_cases h2 : (1000000 : ℚ) < decimalToRat ns <;>
        by_cases h3 : strip ds = [] <;> by_cases h4 : 200 < (strip ds).length <;>
        simp [h1, h2, h3, h4] at h
      exact ⟨h.1.symm, h.2.symm⟩

/-! Data-access layer (src/database/queries.py).  The remote tables are
modelled as in-memory lists of records; each query function is the list
transcription of its single supabase request: `eq`, `gte`, `lte` filters
become list filters, `order ... limit 1` becomes a sort and head, insert
appends, update maps a field patch over matching rows, delete removes
matching rows.  The store assigns ids and `created_at` timestamps
server-side, so records carry them as plain fields. -/

/-- Non-strict date comparison `a ≤ b` (ISO date strings compare in
calendar order). -/
abbrev dateLE (a b : Date) : Prop := a.toOrdinal ≤ b.toOrdinal

/-- Row of the `budgets` table. -/
structure Budget where
  id : Nat
  user_id : Nat
  total_amount : ℚ
  start_date : Date
  end_date : Date
  created_at : Nat
deriving DecidableEq, Repr

/-- Row of the `expenses` table. -/
structure Expense where
  id : Nat
  user_id : Nat
  category_id : Nat
  amount : ℚ
  description : List Char
  expense_date : Date
  budget_id : Option Nat
  created_at : Nat
deriving DecidableEq, Repr

/-- Descending `created_at` order used by
`order("created_at", desc=True)`. -/
def createdDesc (b1 b2 : Budget) : Prop := b2.created_at ≤ b1.created_at

instance : DecidableRel createdDesc := fun b1 b2 => Nat.decLe b2.created_at b1.created_at

instance : IsTotal Budget createdDesc := ⟨fun b1 b2 => Nat.le_total b2.created_at b1.created_at⟩

instance : IsTrans Budget createdDesc :=
  ⟨fun _ _ _ h1 h2 => Nat.le_trans h2 h1⟩

/-- Containment filter of `get_active_budget`: the query's `eq("user_id")`,
`lte("start_date", date)` and `gte("end_date", date)` conditions. -/
def budgetContains (u : Nat) (d : Date) (b : Budget) : Bool :=
  b.user_id == u && decide (dateLE b.start_date d) && decide (dateLE d b.end_date)

/-- Embedding of `get_active_budget`: filter the user's budgets whose
range contains the date, order by `created_at` descending, take the
first. -/
def get_active_budget (store : List Budget) (u : Nat) (d : Date) : Option Budget :=
  ((store.filter (budgetContains u d)).insertionSort createdDesc).head?

/-- Embedding of `get_expenses_for_budget`: the user's expenses with
`start ≤ expense_date ≤ end` (the result order does not affect the
claims). -/
def get_expenses_for_budget (store : List Expense) (u : Nat) (s e : Date) : List Expense :=
  store.filter (fun x =>
    x.user_id == u && decide (dateLE s x.expense_date) && decide (dateLE x.expense_date e))

/-- Embedding of `get_total_spent_in_range`: sum of the amounts returned
by `get_expenses_for_budget`. -/
def get_total_spent_in_range (store : List Expense) (u : Nat) (s e : Date) : ℚ :=
  ((get_expenses_for_budget store u s e).map Expense.amount).sum

/-- Field patch passed to `update_expense` (the keyword arguments: any of
amount, description, category_id). -/
structure ExpensePatch where
  amount : Option ℚ
  description : Option (List Char)
  category_id : Option Nat
deriving DecidableEq, Repr

/-- Application of an update payload to a row. -/
def applyPatch (p : ExpensePatch) (x : Expense) : Expense :=
  ⟨x.id, x.user_id, p.category_id.getD x.category_id, p.amount.getD x.amount,
    p.description.getD x.description, x.expense_date, x.budget_id, x.created_at⟩

/-- Embedding of `update_expense`: update the fields of the rows whose id
matches. -/
def update_expense (store : List Expense) (expense_id : Nat) (p : ExpensePatch) : List Expense :=
  store.map (fun x => if x.id == expense_id then applyPatch p x else x)

/-- Embedding of `delete_expense`: remove the rows whose id matches. -/
def delete_expense (store : List Expense) (expense_id : Nat) : List Expense :=
  store.filter (fun x => x.id != expense_id)

/-! Authorization gate and cancel command (src/bot/handlers.py). -/

/-- Row of the `authorized_users` table. -/
structure AuthUser where
  telegram_user_id : Nat
  username : Option (List Char)
  first_name : Option (List Char)
  is_admin : Bool
  added_by_telegram_id : Option Nat
deriving DecidableEq, Repr

/-- Embedding of `is_user_authorized`: some row has the caller's
platform id. -/
def is_user_authorized (store : List AuthUser) (uid : Nat) : Bool :=
  store.any (fun a => a.telegram_user_id == uid)

/-- Embedding of `add_authorized_user`: insert a new row. -/
def add_authorized_user (store : List AuthUser) (uid : Nat)
    (username first_name : Option (List Char)) (is_admin : Bool)
    (added_by : Option Nat) : List AuthUser :=
  store ++ [⟨uid, username, first_name, is_admin, added_by⟩]

/-- Outcome of the `authorized_only` decorator around a handler: the
authorized-user store after the check, whether the wrapped handler body
runs, and whether an access-denied reply was sent. -/
structure GateOutcome where
  store : List AuthUser
  handler_runs : Bool
  denied_reply : Bool
deriving DecidableEq, Repr

/-- Embedding of the `authorized_only` wrapper: authorized callers
proceed; the configured owner (`ADMIN_USER_ID`) is auto-added as admin if
missing and then proceeds; anyone else gets an access-denied reply and
the handler body is not executed. -/
def authorized_only (ownerId : Nat) (store : List AuthUser) (uid : Nat)
    (username first_name : Option (List Char)) : GateOutcome :=
  if is_user_authorized store uid then ⟨store, true, false⟩
  else if uid == ownerId then
    ⟨add_authorized_user store uid username first_name true (some uid), true, false⟩
  else ⟨store, false, true⟩

/-- Conversation states of the dispatcher (src/bot/states.py), plus the
terminal `ConversationHandler.END`. -/
inductive ConvState where
  | WAITING_CATEGORY
  | WAITING_BUDGET_AMOUNT
  | WAITING_START_DATE
  | WAITING_END_DATE
  | WAITING_EDIT_CHOICE
  | WAITING_NEW_AMOUNT
  | WAITING_NEW_DESCRIPTION
  | WAITING_DELETE_CONFIRM
  | terminal
deriving DecidableEq, Repr

/-- Ephemeral per-session data held in the chat framework's `user_data`
dict: the keys written by the handlers. -/
structure SessionData where
  pending_expense : Option (ℚ × List Char)
  budget_amount : Option ℚ
  start_date : Option Date
  editing_expense_id : Option Nat
  editing_category : Bool
deriving DecidableEq, Repr

/-- Session data after `user_data.clear()`. -/
def SessionData.cleared : SessionData := ⟨none, none, none, none, false⟩

/-- Result of running a handler step: the session data left behind, the
reply text, and the state returned to the dispatcher. -/
structure StepResult where
  session : SessionData
  reply : List Char
  next : ConvState
deriving DecidableEq, Repr

/-- Embedding of `cancel_command`: regardless of the current state and
session data, clear the session, reply, and return
`ConversationHandler.END`. -/
def cancel_command (_state : ConvState) (_session : SessionData) : StepResult :=
  ⟨SessionData.cleared, "❌ Operation cancelled.".toList, ConvState.terminal⟩

/-- Embedding of the expense conversation entry-point filter
`filters.TEXT & ~filters.COMMAND & filters.Regex(r'^\d')` in
`build_expense_conversation_handler`: the filter applies the pattern to
the raw message text (no stripping), and with the `^` anchor it accepts
exactly the texts whose first character is a digit.  A text starting
with a digit is never a bot command, so the `~filters.COMMAND` conjunct
is subsumed; `filters.TEXT` holds for every text message modelled
here. -/
def expense_entry_filter (message : List Char) : Bool :=
  match message with
  | c :: _ => c.isDigit
  | [] => false

/-- The gate that decides whether expense extraction is attempted for an
incoming text: the conversation entry filter must admit the message to
`handle_expense_message`, which then checks `is_expense_message` before
calling `parse_expense`. -/
def expense_extraction_attempted (message : List Char) : Bool :=
  expense_entry_filter message && is_expense_message message

/-! Claims C5, C6, C7, C8: store operations and handler behaviour. -/

/-- Expense created by confirming the parsed message "50 groceries" on
2025-01-10 under user 7, category 3, budget 42. -/
def groceriesExpense : Expense :=
  ⟨1, 7, 3, 50, "groceries".toList, ⟨2025, 1, 10⟩, some 42, 100⟩

/-- The same expense after `update_expense` set its amount to 75. -/
def groceriesExpense75 : Expense :=
  ⟨1, 7, 3, 75, "groceries".toList, ⟨2025, 1, 10⟩, some 42, 100⟩

/-- C5: with a budget of 3000 for 2025-01-01..2025-01-31 and the confirmed
expense "50 groceries", the total spent in the period is 50 and the daily
budget is lower than with no spending; updating the expense amount to 75
via update_expense makes the total 75; deleting it via delete_expense
makes the total 0. -/
theorem C5_expense_lifecycle :
    get_total_spent_in_range [groceriesExpense] 7 ⟨2025, 1, 1⟩ ⟨2025, 1, 31⟩ = 50
    ∧ (calculate_budget_status 3000 50 ⟨2025, 1, 1⟩ ⟨2025, 1, 31⟩ ⟨2025, 1, 10⟩).daily_budget
        < (calculate_budget_status 3000 0 ⟨2025, 1, 1⟩ ⟨2025, 1, 31⟩ ⟨2025, 1, 10⟩).daily_budget
    ∧ get_total_spent_in_range (update_expense [groceriesExpense] 1 ⟨some 75, none, none⟩)
        7 ⟨2025, 1, 1⟩ ⟨2025, 1, 31⟩ = 75
    ∧ get_total_spent_in_range
        (delete_expense (update_expense [groceriesExpense] 1 ⟨some 75, none, none⟩) 1)
        7 ⟨2025, 1, 1⟩ ⟨2025, 1, 31⟩ = 0 := by
  have h1 : get_expenses_for_budget [groceriesExpense] 7 ⟨2025, 1, 1⟩ ⟨2025, 1, 31⟩
      = [groceriesExpense] := by decide
  have h2 : update_expense [groceriesExpense] 1 ⟨some 75, none, none⟩
      = [groceriesExpense75] := by decide
  have h3 : get_expenses_for_budget [groceriesExpense75] 7 ⟨2025, 1, 1⟩ ⟨2025, 1, 31⟩
      = [groceriesExpense75] := by decide
  have h4 : delete_expense [groceriesExpense75] 1 = [] := by decide
  refine ⟨?_, ?_, ?_, ?_⟩
  · unfold get_total_spent_in_range
    rw [h1]
    simp [groceriesExpense]
  · show (if (0 : ℤ) < 22 then ((3000 : ℚ) - 50) / ((22 : ℤ) : ℚ) else 0)
        < (if (0 : ℤ) < 22 then ((3000 : ℚ) - 0) / ((22 : ℤ) : ℚ) else 0)
    norm_num
  · unfold get_total_spent_in_range
    rw [h2, h3]
    simp [groceriesExpense75]
  · unfold get_total_spent_in_range
    rw [h2, h4]
    rfl

/-- C6: get_active_budget returns none exactly when no budget of the user
contains the query date, and otherwise returns a containing budget of the
user with the greatest created_at among all containing budgets. -/
theorem C6_active_budget (store : List Budget) (u : Nat) (d : Date) :
    (get_active_budget store u d = none ↔
      ∀ b ∈ store, ¬(b.user_id = u ∧ dateLE b.start_date d ∧ dateLE d b.end_date))
    ∧ ∀ b, get_active_budget store u d = some b →
        b ∈ store ∧ b.user_id = u ∧ dateLE b.start_date d ∧ dateLE d b.end_date
        ∧ ∀ b2, b2 ∈ store → b2.user_id = u → dateLE b2.start_date d → dateLE d b2.end_date →
            b2.created_at ≤ b.created_at := by
  constructor
  · unfold get_active_budget
    rw [List.head?_eq_none_iff]
    constructor
    · intro h b hb hc
      have hnil : store.filter (budgetContains u d) = [] := by
        have hp := List.perm_insertionSort createdDesc (store.filter (budgetContains u d))
        rw [h] at hp
        exact hp.symm.eq_nil
      have := List.filter_eq_nil_iff.mp hnil b hb
      simp [budgetContains, hc.1, hc.2.1, hc.2.2] at this
    · intro h
      have hnil : store.filter (budgetContains u d) = [] := by
        refine List.filter_eq_nil_iff.mpr (fun b hb => ?_)
        intro hc
        simp only [budgetContains, Bool.and_eq_true, beq_iff_eq, decide_eq_true_eq] at hc
        exact h b hb ⟨hc.1.1, hc.1.2, hc.2⟩
      rw [hnil]
      rfl
  · intro b hb
    unfold get_active_budget at hb
    cases hSc : (store.filter (budgetContains u d)).insertionSort createdDesc with
    | nil =>
      rw [hSc] at hb
      exact Option.noConfusion hb
    | cons x t =>
      rw [hSc] at hb
      have hxb : x = b := by
        simpa using hb
      have hbS : b ∈ (store.filter (budgetContains u d)).insertionSort createdDesc := by
        rw [hSc]
        exact hxb ▸ List.mem_cons_self x t
      have hbf : b ∈ store.filter (budgetContains u d) :=
        (List.mem_insertionSort createdDesc).mp hbS
      have hmem := List.mem_filter.mp hbf
      have hprops := hmem.2
      simp only [budgetContains, Bool.and_eq_true, beq_iff_eq, decide_eq_true_eq] at hprops
      refine ⟨hmem.1, hprops.1.1, hprops.1.2, hprops.2, ?_⟩
      intro b2 hb2 hu2 hs2 he2
      have hb2f : b2 ∈ store.filter (budgetContains u d) :=
        List.mem_filter.mpr ⟨hb2, by
          simp only [budgetContains, Bool.and_eq_true, beq_iff_eq, decide_eq_true_eq]
          exact ⟨⟨hu2, hs2⟩, he2⟩⟩
      have hb2S : b2 ∈ (store.filter (budgetContains u d)).insertionSort createdDesc :=
        (List.mem_insertionSort createdDesc).mpr hb2f
      have hsorted : List.Sorted createdDesc
          ((store.filter (budgetContains u d)).insertionSort createdDesc) :=
        List.sorted_insertionSort createdDesc _
      rw [hSc] at hb2S hsorted
      rcases List.mem_cons.mp hb2S with h | h
      · rw [h, hxb]
      · have hrel := List.rel_of_sorted_cons hsorted b2 h
        rw [hxb] at hrel
        exact hrel

/-- Budget of user 7 for 2025-01-01..2025-01-31 created at time 100. -/
def budgetEarly : Budget := ⟨1, 7, 1000, ⟨2025, 1, 1⟩, ⟨2025, 1, 31⟩, 100⟩

/-- Overlapping budget of user 7 for 2025-01-05..2025-02-05 created later,
at time 200. -/
def budgetLate : Budget := ⟨2, 7, 2000, ⟨2025, 1, 5⟩, ⟨2025, 2, 5⟩, 200⟩

/-- Witness for C6 on a store with two overlapping budgets queried at
2025-01-10: the returned budget is in the store and its created_at
dominates the other containing budget. -/
theorem C6_active_budget_witness :
    budgetEarly.created_at ≤ budgetLate.created_at
    ∧ budgetLate ∈ [budgetEarly, budgetLate] :=
  ⟨((C6_active_budget [budgetEarly, budgetLate] 7 ⟨2025, 1, 10⟩).2 budgetLate
      (by decide)).2.2.2.2 budgetEarly (by decide) (by decide) (by decide) (by decide),
   ((C6_active_budget [budgetEarly, budgetLate] 7 ⟨2025, 1, 10⟩).2 budgetLate (by decide)).1⟩

/-- C7: a caller whose platform id is neither in the authorized-user set
nor the owner id gets an access-denied reply, the handler body does not
run, and the store is unchanged; the owner id, when missing from the set,
is auto-enrolled as admin and the handler proceeds. -/
theorem C7_authorization_gate (ownerId uid : Nat) (store : List AuthUser)
    (un fn : Option (List Char)) :
    (is_user_authorized store uid = false → uid ≠ ownerId →
      (authorized_only ownerId store uid un fn).handler_runs = false
      ∧ (authorized_only ownerId store uid un fn).denied_reply = true
      ∧ (authorized_only ownerId store uid un fn).store = store)
    ∧ (is_user_authorized store uid = false → uid = ownerId →
      (authorized_only ownerId store uid un fn).handler_runs = true
      ∧ (authorized_only ownerId store uid un fn).denied_reply = false
      ∧ (authorized_only ownerId store uid un fn).store
          = add_authorized_user store uid un fn true (some uid)) := by
  constructor
  · intro h1 h2
    simp [authorized_only, h1, h2]
  · intro h1 h2
    subst h2
    simp [authorized_only, h1]

/-- Witness for C7 with owner id 99 and an empty store: caller 5 is
refused with no handler run, and caller 99 is auto-enrolled as admin. -/
theorem C7_authorization_gate_witness :
    ((authorized_only 99 [] 5 none none).handler_runs = false
      ∧ (authorized_only 99 [] 5 none none).denied_reply = true
      ∧ (authorized_only 99 [] 5 none none).store = [])
    ∧ (authorized_only 99 [] 99 none none).store
        = add_authorized_user [] 99 none none true (some 99) :=
  ⟨(C7_authorization_gate 99 5 [] none none).1 (by decide) (by decide),
   ((C7_authorization_gate 99 99 [] none none).2 (by decide) rfl).2.2⟩

/-- C8: in every conversation state the cancel command clears the session
data and returns the terminal state, issuing it again from the resulting
state gives the same cleared session, terminal state and reply, and the
result is identical across all states and session contents. -/
theorem C8_cancel_idempotent (st st2 : ConvState) (s s2 : SessionData) :
    cancel_command st s
      = ⟨SessionData.cleared, "❌ Operation cancelled.".toList, ConvState.terminal⟩
    ∧ cancel_command (cancel_command st s).next (cancel_command st s).session = cancel_command st s
    ∧ cancel_command st s = cancel_command st2 s2 :=
  ⟨rfl, rfl, rfl⟩

/-! Claims C3, C4, C9: properties of the expense parser. -/

/-- C3: parse_expense fails with a typed parse error exactly when the
stripped message does not match the number-whitespace-text pattern, or
the amount is ≤ 0, or the amount is > 1,000,000, or the description is
empty after trimming, or the description exceeds 200 characters; and
"-5 refund", "0 free", "abc food", "50" and "2000000 rent" all fail. -/
theorem C3_parse_failure_characterization (msg : List Char) :
    ((parse_expense msg).isOk = false ↔
      (matchExpense (strip msg) = none
       ∨ ∃ ns ds, matchExpense (strip msg) = some (ns, ds)
          ∧ (decimalToRat ns ≤ 0 ∨ 1000000 < decimalToRat ns
             ∨ strip ds = [] ∨ 200 < (strip ds).length)))
    ∧ parse_expense "-5 refund".toList = .error .invalidFormat
    ∧ parse_expense "0 free".toList = .error .amountNotPositive
    ∧ parse_expense "abc food".toList = .error .invalidFormat
    ∧ parse_expense "50".toList = .error .invalidFormat
    ∧ parse_expense "2000000 rent".toList = .error .amountTooLarge := by
  refine ⟨?_, by decide, by decide, by decide, by decide, by decide⟩
  cases hm : matchExpense (strip msg) with
  | none =>
    constructor
    · intro _
      exact Or.inl rfl
    · intro _
      by_cases h0 : strip msg = []
      · simp [parse_expense, h0, Except.isOk, Except.toBool]
      · simp [parse_expense, h0, hm, Except.isOk, Except.toBool]
  | some p =>
    obtain ⟨ns, ds⟩ := p
    have h0 : strip msg ≠ [] := by
      intro h
      rw [h] at hm
      exact Option.noConfusion hm
    by_cases h1 : decimalToRat ns ≤ 0 <;>
      by_cases h2 : (1000000 : ℚ) < decimalToRat ns <;>
      by_cases h3 : strip ds = [] <;>
      by_cases h4 : 200 < (strip ds).length <;>
      simp [parse_expense, h0, hm, h1, h2, h3, h4, Except.isOk, Except.toBool,
        and_assoc, exists_eq_left']

/-- C4: on success parse_expense returns the value of the matched leading
number token as the amount and the matched remaining text trimmed as the
description; "50 groceries" parses to amount 50 and description
"groceries", "12.50 coffee with friends" to amount 12.5, and ".75 gum"
to amount 0.75. -/
theorem C4_parse_success (msg : List Char) (a : ℚ) (d : List Char) :
    (parse_expense msg = .ok ⟨a, d⟩ →
      ∃ ns ds, matchExpense (strip msg) = some (ns, ds)
        ∧ a = decimalToRat ns ∧ d = strip ds)
    ∧ parse_expense "50 groceries".toList = .ok ⟨50, "groceries".toList⟩
    ∧ parse_expense "12.50 coffee with friends".toList = .ok ⟨12.5, "coffee with friends".toList⟩
    ∧ parse_expense ".75 gum".toList = .ok ⟨0.75, "gum".toList⟩ := by
  refine ⟨?_, by decide, ?_, ?_⟩
  · intro h
    exact (parse_expense_ok_match h).2
  · have h : parse_expense "12.50 coffee with friends".toList
        = .ok ⟨mkRat 25 2, "coffee with friends".toList⟩ := by decide
    rw [h]
    have hv : (mkRat 25 2 : ℚ) = 12.5 := by
      rw [Rat.mkRat_eq_div]
      norm_num
    rw [hv]
  · have h : parse_expense ".75 gum".toList = .ok ⟨mkRat 3 4, "gum".toList⟩ := by decide
    rw [h]
    have hv : (mkRat 3 4 : ℚ) = 0.75 := by
      rw [Rat.mkRat_eq_div]
      norm_num
    rw [hv]

/-- Witness for C4 at "50 groceries": the parse succeeds and the matched
groups determine the amount and trimmed description. -/
theorem C4_parse_success_witness :
    ∃ ns ds, matchExpense (strip "50 groceries".toList) = some (ns, ds)
      ∧ (50 : ℚ) = decimalToRat ns ∧ "groceries".toList = strip ds :=
  (C4_parse_success "50 groceries".toList 50 "groceries".toList).1 (by decide)

/-- Helper: every message on which parse_expense succeeds passes the
in-handler check is_expense_message (both strip the message first, and a
successful match starts with a digit or a dot). -/
theorem parse_ok_is_expense_message {msg : List Char} {pe : ParsedExpense}
    (h : parse_expense msg = .ok pe) : is_expense_message msg = true := by
  obtain ⟨h0, ns, ds, hm, _, _⟩ := parse_expense_ok_match h
  obtain ⟨q, hq⟩ := matchExpense_numberToken hm
  obtain ⟨c, t, hs, hcd⟩ := matchNumberToken_head hq
  unfold is_expense_message
  rw [hs]
  rcases hcd with hc | hc <;> simp [hc]

/-- C9 counterexample: ".75 gum" parses successfully, yet the gate that
decides whether extraction is attempted — the conversation entry filter
`filters.Regex(r'^\d')` in front of `handle_expense_message` — rejects
it, because the first character is a dot, not a digit.  So it is not the
case that every parseable expense message is attempted. -/
theorem C9_gate_counterexample :
    (parse_expense ".75 gum".toList).isOk = true
    ∧ expense_extraction_attempted ".75 gum".toList = false := by
  decide

/-- C9 (amended): is_expense_message is false on "hello", true on
"5 lunch", false on ""; every message on which parse_expense succeeds
passes the in-handler check is_expense_message; and every parseable
message whose first character is a digit passes the full gate (entry
filter plus in-handler check), i.e. extraction is attempted for it. -/
theorem C9_expense_gate_amended (msg : List Char) (c : Char) (t : List Char)
    (pe pe2 : ParsedExpense) :
    (is_expense_message "hello".toList = false
    ∧ is_expense_message "5 lunch".toList = true
    ∧ is_expense_message "".toList = false)
    ∧ (parse_expense msg = .ok pe → is_expense_message msg = true)
    ∧ (c.isDigit = true → parse_expense (c :: t) = .ok pe2 →
        expense_extraction_attempted (c :: t) = true) := by
  refine ⟨by decide, fun h => parse_ok_is_expense_message h, ?_⟩
  intro hc h
  have hg := parse_ok_is_expense_message h
  unfold expense_extraction_attempted expense_entry_filter
  simp [hc, hg]

/-- Witness for C9 at "5 lunch": the parse succeeds, so the message
passes the in-handler check, and since it starts with the digit 5 the
full gate attempts extraction. -/
theorem C9_expense_gate_amended_witness :
    is_expense_message "5 lunch".toList = true
    ∧ expense_extraction_attempted ('5' :: " lunch".toList) = true :=
  ⟨(C9_expense_gate_amended "5 lunch".toList '5' " lunch".toList
      ⟨5, "lunch".toList⟩ ⟨5, "lunch".toList⟩).2.1 (by decide),
   (C9_expense_gate_amended "5 lunch".toList '5' " lunch".toList
      ⟨5, "lunch".toList⟩ ⟨5, "lunch".toList⟩).2.2 (by decide) (by decide)⟩

/-! Claims C1, C2, C10: properties of `calculate_budget_status`. -/

/-- C1: for every total_budget, total_spent, start_date, end_date and
current_date, `calculate_budget_status` returns
days_total = (end − start) + 1;
days_passed = 0 if current < start, days_total if current > end,
else (current − start) + 1;
days_remaining = 0 if current > end, days_total if current < start,
else (end − current) + 1; and on start=2025-01-01, end=2025-01-31,
total=3100, spent=1000, current=2025-01-10 it returns days_total=31,
days_passed=10, days_remaining=22, remaining_budget=2100,
daily_budget=2100/22. -/
theorem C1_calculate_budget_days (tb ts : ℚ) (sd ed cd : Date) :
    ((calculate_budget_status tb ts sd ed cd).days_total = dateSub ed sd + 1
    ∧ (calculate_budget_status tb ts sd ed cd).days_passed =
        (if dateLT cd sd then 0
         else if dateLT ed cd then (calculate_budget_status tb ts sd ed cd).days_total
         else dateSub cd sd + 1)
    ∧ (calculate_budget_status tb ts sd ed cd).days_remaining =
        (if dateLT ed cd then 0
         else if dateLT cd sd then (calculate_budget_status tb ts sd ed cd).days_total
         else dateSub ed cd + 1))
    ∧ ((calculate_budget_status 3100 1000 ⟨2025, 1, 1⟩ ⟨2025, 1, 31⟩ ⟨2025, 1, 10⟩).days_total = 31
    ∧ (calculate_budget_status 3100 1000 ⟨2025, 1, 1⟩ ⟨2025, 1, 31⟩ ⟨2025, 1, 10⟩).days_passed = 10
    ∧ (calculate_budget_status 3100 1000 ⟨2025, 1, 1⟩ ⟨2025, 1, 31⟩ ⟨2025, 1, 10⟩).days_remaining = 22
    ∧ (calculate_budget_status 3100 1000 ⟨2025, 1, 1⟩ ⟨2025, 1, 31⟩ ⟨2025, 1, 10⟩).remaining_budget = 2100
    ∧ (calculate_budget_status 3100 1000 ⟨2025, 1, 1⟩ ⟨2025, 1, 31⟩ ⟨2025, 1, 10⟩).daily_budget = 2100 / 22) := by
  refine ⟨⟨rfl, rfl, rfl⟩, by decide, by decide, by decide, ?_, ?_⟩
  · show (3100 : ℚ) - 1000 = 2100
    norm_num
  · show (if (0 : ℤ) < 22 then ((3100 : ℚ) - 1000) / ((22 : ℤ) : ℚ) else 0) = 2100 / 22
    norm_num

/-- C2: for every input, remaining_budget = total_budget − total_spent and
daily_budget = remaining_budget / days_remaining when days_remaining > 0
else 0; when current_date > end_date, daily_budget = 0 regardless of the
sign of remaining_budget; and when total_spent > total_budget,
is_over_budget is true, remaining_budget is negative, and daily_budget is
still computed through the days_remaining > 0 branch. -/
theorem C2_remaining_and_daily_budget (tb ts : ℚ) (sd ed cd : Date) :
    (calculate_budget_status tb ts sd ed cd).remaining_budget = tb - ts
    ∧ (calculate_budget_status tb ts sd ed cd).daily_budget =
        (if 0 < (calculate_budget_status tb ts sd ed cd).days_remaining
         then (calculate_budget_status tb ts sd ed cd).remaining_budget
                / ((calculate_budget_status tb ts sd ed cd).days_remaining : ℚ)
         else 0)
    ∧ (dateLT ed cd → (calculate_budget_status tb ts sd ed cd).daily_budget = 0)
    ∧ (tb < ts →
        (calculate_budget_status tb ts sd ed cd).is_over_budget = true
        ∧ (calculate_budget_status tb ts sd ed cd).remaining_budget < 0
        ∧ (0 < (calculate_budget_status tb ts sd ed cd).days_remaining →
            (calculate_budget_status tb ts sd ed cd).daily_budget =
              (calculate_budget_status tb ts sd ed cd).remaining_budget
                / ((calculate_budget_status tb ts sd ed cd).days_remaining : ℚ))) := by
  refine ⟨rfl, rfl, ?_, ?_⟩
  · intro h
    simp [calculate_budget_status, h]
  · intro h
    refine ⟨?_, ?_, ?_⟩
    · simp [calculate_budget_status, BudgetStatus.is_over_budget]
      linarith
    · simp only [calculate_budget_status]
      linarith
    · intro h2
      have hd : (calculate_budget_status tb ts sd ed cd).daily_budget =
          (if 0 < (calculate_budget_status tb ts sd ed cd).days_remaining
           then (calculate_budget_status tb ts sd ed cd).remaining_budget
                  / ((calculate_budget_status tb ts sd ed cd).days_remaining : ℚ)
           else 0) := rfl
      rw [hd, if_pos h2]

/-- Witness for C2 at total=100, spent=200, start=end=2025-01-01,
current=2025-01-02: the period is over so daily_budget is 0, and spending
exceeds the budget so is_over_budget is true. -/
theorem C2_remaining_and_daily_budget_witness :
    (calculate_budget_status 100 200 ⟨2025, 1, 1⟩ ⟨2025, 1, 1⟩ ⟨2025, 1, 2⟩).daily_budget = 0
    ∧ (calculate_budget_status 100 200 ⟨2025, 1, 1⟩ ⟨2025, 1, 1⟩ ⟨2025, 1, 2⟩).is_over_budget = true :=
  ⟨(C2_remaining_and_daily_budget 100 200 ⟨2025, 1, 1⟩ ⟨2025, 1, 1⟩ ⟨2025, 1, 2⟩).2.2.1 (by decide),
   ((C2_remaining_and_daily_budget 100 200 ⟨2025, 1, 1⟩ ⟨2025, 1, 1⟩ ⟨2025, 1, 2⟩).2.2.2
      (by norm_num)).1⟩

/-- C10 counterexample: with start=2025-01-10, end=2025-01-01 (an inverted
period) and current=2025-01-05 strictly before start_date, days_passed and
days_remaining are both 0 while days_total = −8, so the sum does not equal
days_total as the claim states for every current_date strictly before
start_date. -/
theorem C10_sum_counterexample :
    dateLT (⟨2025, 1, 5⟩ : Date) ⟨2025, 1, 10⟩
    ∧ (calculate_budget_status 0 0 ⟨2025, 1, 10⟩ ⟨2025, 1, 1⟩ ⟨2025, 1, 5⟩).days_passed
        + (calculate_budget_status 0 0 ⟨2025, 1, 10⟩ ⟨2025, 1, 1⟩ ⟨2025, 1, 5⟩).days_remaining
      ≠ (calculate_budget_status 0 0 ⟨2025, 1, 10⟩ ⟨2025, 1, 1⟩ ⟨2025, 1, 5⟩).days_total := by
  decide

/-- C10 (amended): for start_date ≤ current_date ≤ end_date the returned
values satisfy days_passed + days_remaining = days_total + 1; for
current_date strictly before start_date or strictly after end_date the sum
equals days_total, provided start_date ≤ end_date. -/
theorem C10_days_sum (tb ts : ℚ) (sd ed cd : Date) :
    (¬ dateLT cd sd → ¬ dateLT ed cd →
      (calculate_budget_status tb ts sd ed cd).days_passed
        + (calculate_budget_status tb ts sd ed cd).days_remaining
      = (calculate_budget_status tb ts sd ed cd).days_total + 1)
    ∧ (¬ dateLT ed sd → (dateLT cd sd ∨ dateLT ed cd) →
      (calculate_budget_status tb ts sd ed cd).days_passed
        + (calculate_budget_status tb ts sd ed cd).days_remaining
      = (calculate_budget_status tb ts sd ed cd).days_total) := by
  constructor
  · intro h1 h2
    simp only [calculate_budget_status]
    simp only [if_neg h1, if_neg h2]
    unfold dateSub
    omega
  · intro hse h
    rcases h with h | h
    · have h2 : ¬ dateLT ed cd := by
        simp only [dateLT] at *
        omega
      simp only [calculate_budget_status]
      simp only [if_pos h, if_neg h2]
      omega
    · have h1 : ¬ dateLT cd sd := by
        simp only [dateLT] at *
        omega
      simp only [calculate_budget_status]
      simp only [if_pos h, if_neg h1]
      omega

/-- Witness for C10 at start=2025-01-01, end=2025-01-31: with
current=2025-01-10 inside the range the sum is days_total + 1, and with
current=2025-02-05 after the range the sum is days_total. -/
theorem C10_days_sum_witness :
    ((calculate_budget_status 3100 1000 ⟨2025, 1, 1⟩ ⟨2025, 1, 31⟩ ⟨2025, 1, 10⟩).days_passed
        + (calculate_budget_status 3100 1000 ⟨2025, 1, 1⟩ ⟨2025, 1, 31⟩ ⟨2025, 1, 10⟩).days_remaining
      = (calculate_budget_status 3100 1000 ⟨2025, 1, 1⟩ ⟨2025, 1, 31⟩ ⟨2025, 1, 10⟩).days_total + 1)
    ∧ ((calculate_budget_status 3100 1000 ⟨2025, 1, 1⟩ ⟨2025, 1, 31⟩ ⟨2025, 2, 5⟩).days_passed
        + (calculate_budget_status 3100 1000 ⟨2025, 1, 1⟩ ⟨2025, 1, 31⟩ ⟨2025, 2, 5⟩).days_remaining
      = (calculate_budget_status 3100 1000 ⟨2025, 1, 1⟩ ⟨2025, 1, 31⟩ ⟨2025, 2, 5⟩).days_total) :=
  ⟨(C10_days_sum 3100 1000 ⟨2025, 1, 1⟩ ⟨2025, 1, 31⟩ ⟨2025, 1, 10⟩).1 (by decide) (by decide),
   (C10_days_sum 3100 1000 ⟨2025, 1, 1⟩ ⟨2025, 1, 31⟩ ⟨2025, 2, 5⟩).2 (by decide)
     (Or.inr (by decide))⟩

end BudgetBot
